import Mathlib

/-!
Shallow embedding of the checkmk windows-agent carrier layer, as exercised
by `src/agents/wnx/watest/test-carrier.cpp`.  The test file is the only
source available; the carrier, commander and mailslot implementations it
links against are modelled from the specification (each such definition is
marked "Modelled from the spec:").  The test callback
`MailboxCallbackCarrier` and the `TestStorage` bookkeeping are embedded
directly from the source of the test file.
-/

namespace Carrier

/-- Decidable equality of fallible results, used to evaluate the embedded
conversions on concrete inputs. -/
instance instDecEqExcept {ε α : Type} [DecidableEq ε] [DecidableEq α] :
    DecidableEq (Except ε α)
  | .ok a, .ok b =>
    decidable_of_iff (a = b) ⟨fun h => by rw [h], Except.ok.inj⟩
  | .error a, .error b =>
    decidable_of_iff (a = b) ⟨fun h => by rw [h], Except.error.inj⟩
  | .ok _, .error _ => isFalse fun h => Except.noConfusion h
  | .error _, .ok _ => isFalse fun h => Except.noConfusion h

/-- Modelled from the spec: the closed record-kind enumeration
(`RecordKind` / `DataType` of carrier.h, absent from src/): `Log`,
`Segment`, `Yaml`, `Command`; no other values permitted. -/
inductive DataType where
  | kLog
  | kSegment
  | kYaml
  | kCommand
deriving DecidableEq

/-- Modelled from the spec: the wire record (`CarrierDataHeader` of
carrier.h, absent from src/): provider id string, 64-bit answer id
(kept as a Nat, with the bound `< 2 ^ 64` carried as a hypothesis where it
matters), record kind, and an opaque payload byte sequence. -/
structure CarrierDataHeader where
  providerId : String
  answerId : Nat
  type : DataType
  data : List Nat
deriving DecidableEq

/-- Modelled from the spec: `CarrierDataHeader::createPtr` builds a record
from provider id, answer id, kind and payload bytes. -/
def CarrierDataHeader.createPtr (p : String) (a : Nat) (k : DataType)
    (b : List Nat) : CarrierDataHeader :=
  ⟨p, a, k, b⟩

/-- A string rendered as its payload bytes (unicode code points; the test
data is ASCII). -/
def stringToBytes (s : String) : List Nat :=
  s.data.map Char.toNat

/-- Modelled from the spec: `as_text` "attempts to interpret payload as
text; on invalid encoding, the conversion fails" (spec 4.1).  Invalid
encoding is modelled as any byte outside the ASCII range. -/
def textOfBytes (bs : List Nat) : Option String :=
  if bs.all (fun b => b < 128) then some (String.mk (bs.map Char.ofNat))
  else none

/-- Modelled from the spec: `AsString` of carrier.h.  A null/absent record
gives the empty string; otherwise the payload is interpreted as text and
the conversion fails on invalid encoding (the C++ version throws; here the
failure is an `Except.error`). -/
def AsString (dt : Option CarrierDataHeader) : Except Unit String :=
  match dt with
  | none => .ok ""
  | some d =>
    match textOfBytes d.data with
    | some s => .ok s
    | none => .error ()

/-- Modelled from the spec: `AsDataBlock` of carrier.h.  A null/absent
record gives the empty byte sequence; otherwise the raw payload bytes;
never fails. -/
def AsDataBlock (dt : Option CarrierDataHeader) : List Nat :=
  match dt with
  | none => []
  | some d => d.data

/-! ## Wire codec (spec 4.1 and 6) -/

/-- Little-endian bytes of a number, fixed width `w`. -/
def natToBytesLE : Nat → Nat → List Nat
  | 0, _ => []
  | w + 1, n => n % 256 :: natToBytesLE w (n / 256)

/-- Number denoted by little-endian bytes. -/
def bytesToNatLE : List Nat → Nat
  | [] => 0
  | b :: bs => b + 256 * bytesToNatLE bs

/-- Modelled from the spec: size of the fixed provider-id field of the
wire header (spec 6: "fixed-size header (provider id field, ...)"). -/
def providerFieldSize : Nat := 32

/-- Provider id rendered into its fixed-size zero-padded header field. -/
def providerFieldOf (p : String) : List Nat :=
  stringToBytes p ++ List.replicate (providerFieldSize - p.length) 0

/-- Provider id read back from the fixed field: bytes up to the first
zero padding byte. -/
def providerOfField (field : List Nat) : String :=
  String.mk ((field.takeWhile (fun b => b ≠ 0)).map Char.ofNat)

/-- Numeric tag of a record kind on the wire. -/
def tagOf : DataType → Nat
  | .kLog => 0
  | .kSegment => 1
  | .kYaml => 2
  | .kCommand => 3

/-- Record kind of a wire tag; an unrecognized value is a decode error,
not a silent default. -/
def kindOfTag : Nat → Option DataType
  | 0 => some .kLog
  | 1 => some .kSegment
  | 2 => some .kYaml
  | 3 => some .kCommand
  | _ => none

/-- Total size of the fixed wire header: provider field, 64-bit answer id,
32-bit payload length, one kind tag byte. -/
def headerSize : Nat := providerFieldSize + 8 + 4 + 1

/-- Decode failures (spec 4.1). -/
inductive DecodeError where
  | truncated
  | unknownKind
deriving DecidableEq

/-- Modelled from the spec: `encode(provider_id, answer_id, kind, payload)`
produces one contiguous buffer, fixed-size header followed by the payload
bytes (spec 4.1, 6). -/
def encode (p : String) (a : Nat) (k : DataType) (b : List Nat) :
    List Nat :=
  providerFieldOf p ++ natToBytesLE 8 (a % 2 ^ 64) ++
    natToBytesLE 4 (b.length % 2 ^ 32) ++ [tagOf k] ++ b

/-- Modelled from the spec: `decode(bytes)` validates the minimum length,
extracts the header fields, rejects unknown kind tags, and fails with
`truncated` when fewer bytes remain than the header declares (spec 4.1). -/
def decode (bytes : List Nat) : Except DecodeError CarrierDataHeader :=
  if bytes.length < headerSize then .error .truncated
  else
    let field := bytes.take providerFieldSize
    let rest1 := bytes.drop providerFieldSize
    let a := bytesToNatLE (rest1.take 8)
    let rest2 := rest1.drop 8
    let len := bytesToNatLE (rest2.take 4)
    let rest3 := rest2.drop 4
    match kindOfTag (rest3.headD 0) with
    | none => .error .unknownKind
    | some k =>
      let payload := rest3.drop 1
      if payload.length < len then .error .truncated
      else .ok ⟨providerOfField field, a, k, payload.take len⟩

/-! ## Port addresses, backend channels, CoreCarrier (spec 4.2 and 6) -/

/-- Modelled from the spec: backend tokens of the port-address grammar
(spec 6); the spellings are the ones the test file states in its comments
("mail", "asio", "null", "dump", "file"). -/
def kCarrierMailslotName : String := "mail"

/-- Modelled from the spec: token of the network (stub) backend. -/
def kCarrierAsioName : String := "asio"

/-- Modelled from the spec: token of the null backend. -/
def kCarrierNullName : String := "null"

/-- Modelled from the spec: token of the dump backend. -/
def kCarrierDumpName : String := "dump"

/-- Modelled from the spec: token of the file backend. -/
def kCarrierFileName : String := "file"

/-- Modelled from the spec: `BuildPortName` joins a backend token and an
address into the port string `token:address` (spec 6). -/
def BuildPortName (token addr : String) : String :=
  token ++ ":" ++ addr

/-- Split a port character sequence at the first colon: token before it,
address after it; a string with no colon does not parse. -/
def splitPort : List Char → Option (List Char × List Char)
  | [] => none
  | c :: rest =>
    if c = ':' then some ([], rest)
    else
      match splitPort rest with
      | some (t, a) => some (c :: t, a)
      | none => none

/-- Modelled from the spec: the five backend channel kinds behind the
Carrier (spec 4.2). -/
inductive Backend where
  | queue (name : String)
  | network (addr : String)
  | null
  | dump
  | file (path : String)
deriving DecidableEq

/-- Backend selected by a recognized token, carrying its address. -/
def backendOfToken (token addr : String) : Option Backend :=
  if token = kCarrierMailslotName then some (.queue addr)
  else if token = kCarrierAsioName then some (.network addr)
  else if token = kCarrierNullName then some .null
  else if token = kCarrierDumpName then some .dump
  else if token = kCarrierFileName then some (.file addr)
  else none

/-- Modelled from the spec: parsing a port address string; malformed or
unknown backend tokens are a parse failure (spec 3, "Port Address"). -/
def parseBackend (port : String) : Option Backend :=
  match splitPort port.data with
  | some (t, a) => backendOfToken (String.mk t) (String.mk a)
  | none => none

/-- Externally observable effects of a send: a message written to a named
local queue, an append to a file, or a dump trace.  The null backend
produces no event. -/
inductive Event where
  | queueMsg (qname : String) (record : CarrierDataHeader)
  | fileAppend (path : String) (bytes : List Nat)
  | dumpTrace (record : CarrierDataHeader)
deriving DecidableEq

/-- Modelled from the spec: `CoreCarrier` holds at most one active backend
channel (spec 3, "Carrier"). -/
structure CoreCarrier where
  channel : Option Backend
deriving DecidableEq

/-- A carrier on which nothing is established. -/
def CoreCarrier.idle : CoreCarrier := ⟨none⟩

/-- Modelled from the spec: `establishCommunication` parses the port; on
success it stores the corresponding channel; the network (stub) backend
and any parse failure leave the carrier unestablished and return false
(spec 4.2). -/
def establishCommunication (_cc : CoreCarrier) (port : String) :
    Bool × CoreCarrier :=
  match parseBackend port with
  | some (.network _) => (false, ⟨none⟩)
  | some b => (true, ⟨some b⟩)
  | none => (false, ⟨none⟩)

/-- Modelled from the spec: `shutdownCommunication` releases the active
channel; a no-op when nothing is established (spec 4.2). -/
def shutdownCommunication (_cc : CoreCarrier) : CoreCarrier := ⟨none⟩

/-- Modelled from the spec: backend kind token of the established channel
(`getName`, spec 4.2). -/
def CoreCarrier.getName (cc : CoreCarrier) : String :=
  match cc.channel with
  | some (.queue _) => kCarrierMailslotName
  | some (.network _) => kCarrierAsioName
  | some .null => kCarrierNullName
  | some .dump => kCarrierDumpName
  | some (.file _) => kCarrierFileName
  | none => ""

/-- Modelled from the spec: resolved address of the established channel
(`getAddress`, spec 4.2). -/
def CoreCarrier.getAddress (cc : CoreCarrier) : String :=
  match cc.channel with
  | some (.queue n) => n
  | some (.network a) => a
  | some (.file p) => p
  | _ => ""

/-- Modelled from the spec: delivery of one wire record through the active
channel, with each backend kind keeping its delivery semantics from the
dispatch table of spec 4.2; returns success and the observable events. -/
def sendRecord (cc : CoreCarrier) (record : CarrierDataHeader) :
    Bool × List Event :=
  match cc.channel with
  | none => (false, [])
  | some (.queue qname) => (true, [.queueMsg qname record])
  | some (.network _) => (false, [])
  | some .null => (true, [])
  | some .dump => (true, [.dumpTrace record])
  | some (.file path) =>
    (true, [.fileAppend path
      (encode record.providerId record.answerId record.type record.data)])

/-- Modelled from the spec: `sendData(peer, answer_id, bytes)` emits a
Segment record through the active channel (spec 4.2). -/
def sendData (cc : CoreCarrier) (peer : String) (answerId : Nat)
    (bytes : List Nat) : Bool × List Event :=
  sendRecord cc ⟨peer, answerId, .kSegment, bytes⟩

/-- Modelled from the spec: `sendLog(peer, text)` emits a Log record, the
answer id left at a caller-insignificant default (spec 4.2). -/
def sendLog (cc : CoreCarrier) (peer text : String) : Bool × List Event :=
  sendRecord cc ⟨peer, 0, .kLog, stringToBytes text⟩

/-- Modelled from the spec: `sendYaml(peer, text)` emits a Yaml record
(spec 4.2). -/
def sendYaml (cc : CoreCarrier) (peer text : String) : Bool × List Event :=
  sendRecord cc ⟨peer, 0, .kYaml, stringToBytes text⟩

/-- Modelled from the spec: `sendCommand(peer, text)` emits a Command
record (spec 4.2). -/
def sendCommand (cc : CoreCarrier) (peer text : String) :
    Bool × List Event :=
  sendRecord cc ⟨peer, 0, .kCommand, stringToBytes text⟩

/-- The records a listener on queue `q` receives, in send order, from a
trace of events (spec 5: messages through a single queue are delivered to
the callback in send order). -/
def eventsToQueue (q : String) (events : List Event) :
    List CarrierDataHeader :=
  events.filterMap fun e =>
    match e with
    | .queueMsg qname r => if qname = q then some r else none
    | _ => none

/-! ## Test fixture callback, embedded from
`src/agents/wnx/watest/test-carrier.cpp` (CarrierTestFixture). -/

/-- `CarrierTestFixture::TestStorage`: the bookkeeping the mailbox
callback mutates. -/
structure TestStorage where
  buffer : List Nat
  delivered : Bool
  answerId : Nat
  peerName : String
  correctYamls : Nat
  correctLogs : Nat
  correctCommands : Nat
deriving DecidableEq

/-- Zero-initialized static `g_mailslot_storage`. -/
def TestStorage.initial : TestStorage :=
  ⟨[], false, 0, "", 0, 0, 0⟩

/-- `TestStorage::reset()`: clears the buffer, the delivered flag and the
three counters (the answer id and peer name are left as they are, exactly
as in the source). -/
def TestStorage.reset (st : TestStorage) : TestStorage :=
  { st with
    buffer := []
    delivered := false
    correctLogs := 0
    correctYamls := 0
    correctCommands := 0 }

/-- The `case DataType::kCommand` body of `MailboxCallbackCarrier`:
try-catch around the text conversion, count a match on "aaa", then set
the delivered flag (the catch discards the failure). -/
def commandBranch (st : TestStorage) (dt : CarrierDataHeader) :
    TestStorage :=
  let st1 :=
    match AsString (some dt) with
    | .ok s =>
      if s = "aaa" then { st with correctCommands := st.correctCommands + 1 }
      else st
    | .error _ => st
  { st1 with delivered := true }

/-- The state transition of `MailboxCallbackCarrier` on one record: the
switch over the record kind, with the Yaml case falling through into the
Command case exactly as in the source (the Yaml branch has no `break`). -/
def callbackStep (st : TestStorage) (dt : CarrierDataHeader) :
    TestStorage :=
  match dt.type with
  | .kLog =>
    match AsString (some dt) with
    | .ok s =>
      if s = "aaa" then { st with correctLogs := st.correctLogs + 1 }
      else st
    | .error _ => st
  | .kSegment =>
    { st with
      buffer := dt.data
      answerId := dt.answerId
      peerName := dt.providerId }
  | .kYaml =>
    let st1 :=
      match AsString (some dt) with
      | .ok s =>
        if s = "aaa" then { st with correctYamls := st.correctYamls + 1 }
        else st
      | .error _ => st
    commandBranch st1 dt
  | .kCommand => commandBranch st dt

/-- `MailboxCallbackCarrier`: a null context returns false at once;
otherwise the switch runs and the callback returns true. -/
def MailboxCallbackCarrier (ctx : Option TestStorage)
    (dt : CarrierDataHeader) : Bool × Option TestStorage :=
  match ctx with
  | none => (false, none)
  | some st => (true, some (callbackStep st dt))

/-- The listener worker loop feeding received records to the callback one
by one, in order. -/
def runMailbox (ctx : Option TestStorage)
    (msgs : List CarrierDataHeader) : Option TestStorage :=
  msgs.foldl (fun c m => (MailboxCallbackCarrier c m).2) ctx

/-- The same loop on a non-null context. -/
def runSteps (st : TestStorage) (msgs : List CarrierDataHeader) :
    TestStorage :=
  msgs.foldl callbackStep st

/-- A record whose text conversion succeeds with "aaa". -/
def matchesAaa (dt : CarrierDataHeader) : Bool :=
  match AsString (some dt) with
  | .ok s => decide (s = "aaa")
  | .error _ => false

/-- A Log record counted by the callback. -/
def isLogMatch (dt : CarrierDataHeader) : Bool :=
  decide (dt.type = .kLog) && matchesAaa dt

/-- A Yaml record counted by the callback. -/
def isYamlMatch (dt : CarrierDataHeader) : Bool :=
  decide (dt.type = .kYaml) && matchesAaa dt

/-- A Command record counted by the callback (the Yaml fallthrough is
accounted separately). -/
def isCommandKindMatch (dt : CarrierDataHeader) : Bool :=
  decide (dt.type = .kCommand) && matchesAaa dt

/-! ## Command router (commander.h / commander.cpp, absent from src/) -/

/-- Modelled from the spec: the process-wide command handler signature
`(peer, command_text) to accepted` (spec 3, "Command Router
singleton"). -/
def RunCommandProcessor : Type := String → String → Bool

/-- Modelled from the spec: `current_handler()` reads the singleton state
(`ObtainRunCommandProcessor`). -/
def ObtainRunCommandProcessor (st : RunCommandProcessor) :
    RunCommandProcessor := st

/-- Modelled from the spec: `set_handler(new_handler)` swaps the singleton
and returns the handler it replaced
(`ChangeRunCommandProcessor`, spec 4.4). -/
def ChangeRunCommandProcessor (new : RunCommandProcessor)
    (st : RunCommandProcessor) :
    RunCommandProcessor × RunCommandProcessor := (st, new)

/-- Modelled from the spec: the provider id `InformByMailSlot` stamps on
the Command records it sends — the local process identity (spec 4.4). -/
def kMainPeer : String := "main_peer"

/-- Modelled from the spec: `InformByMailSlot(queue_name, command_text)`
establishes a one-shot mailslot carrier at the queue, sends one Command
record carrying the text, and shuts down (spec 4.4, inform_via_queue). -/
def InformByMailSlot (qname cmd : String) : Bool × List Event :=
  let (ok, cc) :=
    establishCommunication CoreCarrier.idle
      (BuildPortName kCarrierMailslotName qname)
  if ok then sendCommand cc kMainPeer cmd else (false, [])

/-- Modelled from the spec: the production dispatch rule of the receive
callback — a Command record invokes the current handler on its provider id
and its text; other kinds and failed text conversions invoke nothing
(spec 4.4, "Dispatch rule"). -/
def dispatchRecord (handler : RunCommandProcessor)
    (dt : CarrierDataHeader) : Option (String × String × Bool) :=
  if dt.type = .kCommand then
    match AsString (some dt) with
    | .ok s => some (dt.providerId, s, handler dt.providerId s)
    | .error _ => none
  else none

/-- The handler invocations a listener performs over a list of received
records, in order. -/
def dispatchAll (handler : RunCommandProcessor)
    (msgs : List CarrierDataHeader) : List (String × String × Bool) :=
  msgs.filterMap (dispatchRecord handler)

/-- The test handler `TestRunCommand` of the source: records the command
and accepts it (the recording is modelled by the invocation trace of
`dispatchAll`; the handler itself always returns true). -/
def TestRunCommand : RunCommandProcessor := fun _ _ => true

/-! ## Helper lemmas -/

theorem natToBytesLE_length (w n : Nat) : (natToBytesLE w n).length = w := by
  induction w generalizing n with
  | zero => rfl
  | succ w ih => simp [natToBytesLE, ih]

theorem bytesToNatLE_natToBytesLE (w n : Nat) (h : n < 256 ^ w) :
    bytesToNatLE (natToBytesLE w n) = n := by
  induction w generalizing n with
  | zero =>
    simp [Nat.pow_zero] at h
    simp [natToBytesLE, bytesToNatLE, h]
  | succ w ih =>
    have hdiv : n / 256 < 256 ^ w := by
      rw [Nat.div_lt_iff_lt_mul (by norm_num)]
      calc n < 256 ^ (w + 1) := h
        _ = 256 ^ w * 256 := by ring
    simp only [natToBytesLE, bytesToNatLE, ih _ hdiv]
    omega

theorem takeWhile_append_replicate_zero (l : List Nat) (k : Nat)
    (h : ∀ x ∈ l, x ≠ 0) :
    (l ++ List.replicate k 0).takeWhile (fun b => b ≠ 0) = l := by
  induction l with
  | nil =>
    cases k with
    | zero => rfl
    | succ k => simp [List.replicate, List.takeWhile]
  | cons c cs ih =>
    have hc : decide (c ≠ 0) = true :=
      decide_eq_true (h c (List.mem_cons_self c cs))
    simp only [List.cons_append, List.takeWhile, hc]
    exact congrArg (c :: ·) (ih fun x hx => h x (List.mem_cons_of_mem c hx))

theorem stringToBytes_length (p : String) :
    (stringToBytes p).length = p.length := by
  simp only [stringToBytes, List.length_map]
  rfl

theorem providerFieldOf_length (p : String)
    (h : p.length ≤ providerFieldSize) :
    (providerFieldOf p).length = providerFieldSize := by
  simp [providerFieldOf, stringToBytes_length]
  omega

theorem providerOfField_providerFieldOf (p : String)
    (h : ∀ c ∈ p.data, c.toNat ≠ 0) :
    providerOfField (providerFieldOf p) = p := by
  unfold providerOfField providerFieldOf stringToBytes
  rw [takeWhile_append_replicate_zero _ _ ?hz]
  case hz =>
    intro x hx
    obtain ⟨c, hc, hcx⟩ := List.mem_map.mp hx
    exact hcx ▸ h c hc
  rw [List.map_map]
  have hcomp : (Char.ofNat ∘ Char.toNat) = (id : Char → Char) := by
    funext c
    exact Char.ofNat_toNat c
  rw [hcomp, List.map_id]

theorem take_of_length_append (l1 l2 : List Nat) (n : Nat)
    (h : l1.length = n) : (l1 ++ l2).take n = l1 := by
  subst h
  exact List.take_left l1 l2

theorem drop_of_length_append (l1 l2 : List Nat) (n : Nat)
    (h : l1.length = n) : (l1 ++ l2).drop n = l2 := by
  subst h
  exact List.drop_left l1 l2

theorem kindOfTag_tagOf (k : DataType) : kindOfTag (tagOf k) = some k := by
  cases k <;> rfl

theorem decode_encode (p : String) (a : Nat) (k : DataType) (b : List Nat)
    (hp1 : p.length ≤ providerFieldSize)
    (hp2 : ∀ c ∈ p.data, c.toNat ≠ 0)
    (ha : a < 2 ^ 64) (hlen : b.length < 2 ^ 32) :
    decode (encode p a k b) = .ok ⟨p, a, k, b⟩ := by
  have hF : (providerFieldOf p).length = providerFieldSize :=
    providerFieldOf_length p hp1
  have hA : (natToBytesLE 8 (a % 2 ^ 64)).length = 8 := natToBytesLE_length 8 _
  have hL : (natToBytesLE 4 (b.length % 2 ^ 32)).length = 4 :=
    natToBytesLE_length 4 _
  have hAval : bytesToNatLE (natToBytesLE 8 (a % 2 ^ 64)) = a := by
    have hmod : a % 2 ^ 64 < 256 ^ 8 := by
      have h256 : (256 : Nat) ^ 8 = 2 ^ 64 := by norm_num
      rw [h256]
      exact Nat.mod_lt _ (by norm_num)
    rw [bytesToNatLE_natToBytesLE 8 _ hmod, Nat.mod_eq_of_lt ha]
  have hLval : bytesToNatLE (natToBytesLE 4 (b.length % 2 ^ 32)) =
      b.length := by
    have hmod : b.length % 2 ^ 32 < 256 ^ 4 := by
      have h256 : (256 : Nat) ^ 4 = 2 ^ 32 := by norm_num
      rw [h256]
      exact Nat.mod_lt _ (by norm_num)
    rw [bytesToNatLE_natToBytesLE 4 _ hmod, Nat.mod_eq_of_lt hlen]
  have hENC : encode p a k b =
      providerFieldOf p ++ (natToBytesLE 8 (a % 2 ^ 64) ++
        (natToBytesLE 4 (b.length % 2 ^ 32) ++ (tagOf k :: b))) := by
    simp [encode, List.append_assoc]
  rw [hENC]
  simp only [decode]
  rw [if_neg (by
    simp only [List.length_append, List.length_cons, hF, hA, hL,
      headerSize, providerFieldSize]
    omega)]
  rw [take_of_length_append _ _ _ hF, drop_of_length_append _ _ _ hF,
    take_of_length_append _ _ _ hA, drop_of_length_append _ _ _ hA,
    take_of_length_append _ _ _ hL, drop_of_length_append _ _ _ hL]
  simp [kindOfTag_tagOf, hLval, hAval,
    providerOfField_providerFieldOf p hp2, List.take_length]
  norm_num at hAval hLval
  simp [hAval, hLval, List.take_length]

theorem splitPort_append (t a : List Char) (h : ':' ∉ t) :
    splitPort (t ++ ':' :: a) = some (t, a) := by
  induction t with
  | nil => simp [splitPort]
  | cons c cs ih =>
    have hc : c ≠ ':' := fun hc => h (hc ▸ List.mem_cons_self c cs)
    simp only [List.cons_append, splitPort, if_neg hc, List.append_eq,
      ih fun hm => h (List.mem_cons_of_mem c hm)]

theorem buildPortName_data (token addr : String) :
    (BuildPortName token addr).data = token.data ++ ':' :: addr.data := by
  simp [BuildPortName, String.data_append]

theorem parseBackend_buildPort (token addr : String)
    (h : ':' ∉ token.data) :
    parseBackend (BuildPortName token addr) = backendOfToken token addr := by
  unfold parseBackend
  rw [buildPortName_data, splitPort_append _ _ h]

theorem callbackStep_correctLogs (st : TestStorage)
    (dt : CarrierDataHeader) :
    (callbackStep st dt).correctLogs =
      st.correctLogs + (if isLogMatch dt then 1 else 0) := by
  obtain ⟨pid, aid, ty, d⟩ := dt
  cases hA : AsString (some ⟨pid, aid, ty, d⟩) with
  | error e =>
    cases ty <;>
      simp [callbackStep, isLogMatch, matchesAaa, commandBranch, hA]
  | ok s =>
    by_cases hs : s = "aaa" <;>
      cases ty <;>
      simp [callbackStep, isLogMatch, matchesAaa, commandBranch, hA, hs]

theorem callbackStep_correctYamls (st : TestStorage)
    (dt : CarrierDataHeader) :
    (callbackStep st dt).correctYamls =
      st.correctYamls + (if isYamlMatch dt then 1 else 0) := by
  obtain ⟨pid, aid, ty, d⟩ := dt
  cases hA : AsString (some ⟨pid, aid, ty, d⟩) with
  | error e =>
    cases ty <;>
      simp [callbackStep, isYamlMatch, matchesAaa, commandBranch, hA]
  | ok s =>
    by_cases hs : s = "aaa" <;>
      cases ty <;>
      simp [callbackStep, isYamlMatch, matchesAaa, commandBranch, hA, hs]

theorem callbackStep_correctCommands (st : TestStorage)
    (dt : CarrierDataHeader) :
    (callbackStep st dt).correctCommands =
      st.correctCommands + (if isCommandKindMatch dt then 1 else 0) +
        (if isYamlMatch dt then 1 else 0) := by
  obtain ⟨pid, aid, ty, d⟩ := dt
  cases hA : AsString (some ⟨pid, aid, ty, d⟩) with
  | error e =>
    cases ty <;>
      simp [callbackStep, isCommandKindMatch, isYamlMatch, matchesAaa,
        commandBranch, hA]
  | ok s =>
    by_cases hs : s = "aaa" <;>
      cases ty <;>
      simp [callbackStep, isCommandKindMatch, isYamlMatch, matchesAaa,
        commandBranch, hA, hs]

theorem runSteps_cons (st : TestStorage) (m : CarrierDataHeader)
    (ms : List CarrierDataHeader) :
    runSteps st (m :: ms) = runSteps (callbackStep st m) ms := rfl

theorem runSteps_correctLogs (msgs : List CarrierDataHeader)
    (st : TestStorage) :
    (runSteps st msgs).correctLogs =
      st.correctLogs + msgs.countP isLogMatch := by
  induction msgs generalizing st with
  | nil => simp [runSteps]
  | cons m ms ih =>
    rw [runSteps_cons, ih, callbackStep_correctLogs, List.countP_cons]
    by_cases hm : isLogMatch m <;> simp [hm] <;> omega

theorem runSteps_correctCommands (msgs : List CarrierDataHeader)
    (st : TestStorage) :
    (runSteps st msgs).correctCommands =
      st.correctCommands + msgs.countP isCommandKindMatch +
        msgs.countP isYamlMatch := by
  induction msgs generalizing st with
  | nil => simp [runSteps]
  | cons m ms ih =>
    rw [runSteps_cons, ih, callbackStep_correctCommands,
      List.countP_cons, List.countP_cons]
    by_cases hm : isCommandKindMatch m <;>
      by_cases hy : isYamlMatch m <;> simp [hm, hy] <;> omega

theorem runMailbox_some (st : TestStorage)
    (msgs : List CarrierDataHeader) :
    runMailbox (some st) msgs = some (runSteps st msgs) := by
  induction msgs generalizing st with
  | nil => rfl
  | cons m ms ih => exact ih (callbackStep st m)

/-! ## Claim theorems -/

/-- C3: decoding the record encoded from provider id `p`, answer id `a`,
kind `k` and payload `b` (empty payload included) reproduces `p`, `a`, `k`
and `b` exactly, for every kind; and a record built by
`CarrierDataHeader.createPtr` from `b` yields `AsDataBlock` equal to `b`
and, when `b` is valid text, `AsString` equal to `b` read as text.  The
hypotheses bound the inputs to what the C++ types can represent: a
provider id that fits the fixed header field without NUL bytes, a 64-bit
answer id, a payload addressable by the 32-bit length field. -/
theorem c3_codec_roundtrip (p : String) (a : Nat) (k : DataType)
    (b : List Nat)
    (hp1 : p.length ≤ providerFieldSize)
    (hp2 : ∀ c ∈ p.data, c.toNat ≠ 0)
    (ha : a < 2 ^ 64) (hlen : b.length < 2 ^ 32) :
    decode (encode p a k b) = .ok ⟨p, a, k, b⟩ ∧
      AsDataBlock (some (CarrierDataHeader.createPtr p a k b)) = b ∧
      (b.all (fun x => x < 128) = true →
        AsString (some (CarrierDataHeader.createPtr p a k b)) =
          .ok (String.mk (b.map Char.ofNat))) := by
  refine ⟨decode_encode p a k b hp1 hp2 ha hlen, rfl, fun hv => ?_⟩
  simp [AsString, CarrierDataHeader.createPtr, textOfBytes, hv]

/-- C3 witness: the concrete record of CarrierTest.DataHeaderConversion,
provider "1", answer id 1, kind Log, payload "abcde". -/
theorem c3_codec_roundtrip_witness :
    ("1" : String).length ≤ providerFieldSize ∧
      (∀ c ∈ ("1" : String).data, c.toNat ≠ 0) ∧
      1 < 2 ^ 64 ∧ ([97, 98, 99, 100, 101] : List Nat).length < 2 ^ 32 ∧
      (decode (encode "1" 1 .kLog [97, 98, 99, 100, 101]) =
          .ok ⟨"1", 1, .kLog, [97, 98, 99, 100, 101]⟩ ∧
        AsDataBlock (some (CarrierDataHeader.createPtr "1" 1 .kLog
          [97, 98, 99, 100, 101])) = [97, 98, 99, 100, 101] ∧
        (([97, 98, 99, 100, 101] : List Nat).all (fun x => x < 128) = true →
          AsString (some (CarrierDataHeader.createPtr "1" 1 .kLog
            [97, 98, 99, 100, 101])) =
            .ok (String.mk ([97, 98, 99, 100, 101].map Char.ofNat)))) :=
  ⟨by decide, by decide, by decide, by decide,
    c3_codec_roundtrip "1" 1 .kLog [97, 98, 99, 100, 101]
      (by decide) (by decide) (by decide) (by decide)⟩

/-- C4: AsString on a null/absent record returns the empty string (an
`Except.ok`, not a failure) and AsDataBlock on a null/absent record
returns the empty byte sequence. -/
theorem c4_null_record_conversions :
    AsString none = .ok "" ∧ AsDataBlock none = [] :=
  ⟨rfl, rfl⟩

/-- C8: swapping in a new command handler returns the handler that was
active before the swap, and swapping the returned handler back in makes
the current handler the original one again — the save/restore round-trip
of ObtainRunCommandProcessor / ChangeRunCommandProcessor. -/
theorem c8_handler_save_restore (old new : RunCommandProcessor) :
    (ChangeRunCommandProcessor new (ObtainRunCommandProcessor old)).1 =
        old ∧
      ObtainRunCommandProcessor
        (ChangeRunCommandProcessor
          (ChangeRunCommandProcessor new (ObtainRunCommandProcessor old)).1
          (ChangeRunCommandProcessor new
            (ObtainRunCommandProcessor old)).2).2 = old :=
  ⟨rfl, rfl⟩

/-- C6: establishing with the null backend always returns true, and every
subsequent send operation returns true while producing no observable
external event. -/
theorem c6_null_backend (addr peer text : String) (aid : Nat)
    (bytes : List Nat) :
    (establishCommunication CoreCarrier.idle
        (BuildPortName kCarrierNullName addr)).1 = true ∧
      sendData (establishCommunication CoreCarrier.idle
        (BuildPortName kCarrierNullName addr)).2 peer aid bytes =
        (true, []) ∧
      sendLog (establishCommunication CoreCarrier.idle
        (BuildPortName kCarrierNullName addr)).2 peer text = (true, []) ∧
      sendYaml (establishCommunication CoreCarrier.idle
        (BuildPortName kCarrierNullName addr)).2 peer text = (true, []) ∧
      sendCommand (establishCommunication CoreCarrier.idle
        (BuildPortName kCarrierNullName addr)).2 peer text = (true, []) := by
  have hp : parseBackend (BuildPortName kCarrierNullName addr) =
      some .null := by
    rw [parseBackend_buildPort _ _ (by decide)]
    rfl
  simp [establishCommunication, hp, sendData, sendLog, sendYaml,
    sendCommand, sendRecord]

/-- C7: establishing with the network (asio stub) backend returns false,
a sendData attempted on the resulting carrier returns false, and
establishing with an unrecognized backend token returns false; all three
are plain boolean failures of total functions, none throws. -/
theorem c7_network_and_unknown_fail (addr token peer : String) (aid : Nat)
    (bytes : List Nat)
    (h1 : token ≠ kCarrierMailslotName) (h2 : token ≠ kCarrierAsioName)
    (h3 : token ≠ kCarrierNullName) (h4 : token ≠ kCarrierDumpName)
    (h5 : token ≠ kCarrierFileName) (hc : ':' ∉ token.data) :
    (establishCommunication CoreCarrier.idle
        (BuildPortName kCarrierAsioName addr)).1 = false ∧
      sendData (establishCommunication CoreCarrier.idle
        (BuildPortName kCarrierAsioName addr)).2 peer aid bytes =
        (false, []) ∧
      (establishCommunication CoreCarrier.idle
        (BuildPortName token addr)).1 = false := by
  have hasio : parseBackend (BuildPortName kCarrierAsioName addr) =
      some (.network addr) := by
    rw [parseBackend_buildPort _ _ (by decide)]
    rfl
  have htok : parseBackend (BuildPortName token addr) = none := by
    rw [parseBackend_buildPort _ _ hc]
    simp [backendOfToken, h1, h2, h3, h4, h5]
  simp [establishCommunication, hasio, htok, sendData, sendRecord]

/-- C7 witness: the concrete bad port of CarrierTestFixture
EstablishShutdown, token "<GTEST>" and address "127.0.0.1". -/
theorem c7_network_and_unknown_fail_witness :
    ("<GTEST>" : String) ≠ kCarrierMailslotName ∧
      ("<GTEST>" : String) ≠ kCarrierAsioName ∧
      ("<GTEST>" : String) ≠ kCarrierNullName ∧
      ("<GTEST>" : String) ≠ kCarrierDumpName ∧
      ("<GTEST>" : String) ≠ kCarrierFileName ∧
      ':' ∉ ("<GTEST>" : String).data ∧
      ((establishCommunication CoreCarrier.idle
          (BuildPortName kCarrierAsioName "127.0.0.1")).1 = false ∧
        sendData (establishCommunication CoreCarrier.idle
          (BuildPortName kCarrierAsioName "127.0.0.1")).2 "a" 11
          (stringToBytes "Output from the asio") = (false, []) ∧
        (establishCommunication CoreCarrier.idle
          (BuildPortName "<GTEST>" "127.0.0.1")).1 = false) :=
  ⟨by decide, by decide, by decide, by decide, by decide, by decide,
    c7_network_and_unknown_fail "127.0.0.1" "<GTEST>" "a" 11
      (stringToBytes "Output from the asio")
      (by decide) (by decide) (by decide) (by decide) (by decide)
      (by decide)⟩

/-- C2: with a listener on queue `q` and a carrier established at port
queue q, sendData with peer "peer-a", answer id `a` and payload `b`
returns true and produces exactly one queue message; the listener receives
exactly that one Segment record, whose answer id is `a`, provider id
"peer-a" and payload `b` byte for byte; the callback stores all three.
The hypotheses bound `a` and `b` to what the C++ types (uint64_t, bytes)
can represent. -/
theorem c2_send_data_delivery (q : String) (a : Nat) (b : List Nat)
    (st : TestStorage) (ha : a < 2 ^ 64) (hb : ∀ x ∈ b, x < 256) :
    (establishCommunication CoreCarrier.idle
        (BuildPortName kCarrierMailslotName q)).1 = true ∧
      sendData (establishCommunication CoreCarrier.idle
        (BuildPortName kCarrierMailslotName q)).2 "peer-a" a b =
        (true, [Event.queueMsg q ⟨"peer-a", a, .kSegment, b⟩]) ∧
      eventsToQueue q [Event.queueMsg q ⟨"peer-a", a, .kSegment, b⟩] =
        [⟨"peer-a", a, .kSegment, b⟩] ∧
      runMailbox (some st) [⟨"peer-a", a, .kSegment, b⟩] =
        some { st with buffer := b, answerId := a, peerName := "peer-a" } := by
  have hp : parseBackend (BuildPortName kCarrierMailslotName q) =
      some (.queue q) := by
    rw [parseBackend_buildPort _ _ (by decide)]
    rfl
  exact ⟨by simp [establishCommunication, hp],
    by simp [establishCommunication, hp, sendData, sendRecord],
    by simp [eventsToQueue], rfl⟩

/-- C2 witness: queue "WinAgentTest", answer id 11, the fixture bytes
[1, 2, 3]. -/
theorem c2_send_data_delivery_witness :
    11 < 2 ^ 64 ∧ (∀ x ∈ ([1, 2, 3] : List Nat), x < 256) ∧
      ((establishCommunication CoreCarrier.idle
          (BuildPortName kCarrierMailslotName "WinAgentTest")).1 = true ∧
        sendData (establishCommunication CoreCarrier.idle
          (BuildPortName kCarrierMailslotName "WinAgentTest")).2 "peer-a"
          11 [1, 2, 3] =
          (true, [Event.queueMsg "WinAgentTest"
            ⟨"peer-a", 11, .kSegment, [1, 2, 3]⟩]) ∧
        eventsToQueue "WinAgentTest"
          [Event.queueMsg "WinAgentTest"
            ⟨"peer-a", 11, .kSegment, [1, 2, 3]⟩] =
          [⟨"peer-a", 11, .kSegment, [1, 2, 3]⟩] ∧
        runMailbox (some TestStorage.initial)
          [⟨"peer-a", 11, .kSegment, [1, 2, 3]⟩] =
          some { TestStorage.initial with
                  buffer := [1, 2, 3]
                  answerId := 11
                  peerName := "peer-a" }) :=
  ⟨by decide, by decide,
    c2_send_data_delivery "WinAgentTest" 11 [1, 2, 3] TestStorage.initial
      (by decide) (by decide)⟩

/-- C1: with a carrier established at queue `q`, sendLog and sendCommand
with text "aaa" each return true and enqueue one record; the listener
processing those four records in any order, starting from storage whose
counters are reset, counts exactly two log-matches and exactly two
command-matches (duplicates counted independently, order across kinds
irrelevant). -/
theorem c1_two_logs_two_commands (q : String) (st : TestStorage)
    (msgs : List CarrierDataHeader)
    (hlogs : st.correctLogs = 0) (hcmds : st.correctCommands = 0)
    (hperm : msgs.Perm
      [⟨"x", 0, .kLog, stringToBytes "aaa"⟩,
        ⟨"x", 0, .kLog, stringToBytes "aaa"⟩,
        ⟨"x", 0, .kCommand, stringToBytes "aaa"⟩,
        ⟨"x", 0, .kCommand, stringToBytes "aaa"⟩]) :
    (establishCommunication CoreCarrier.idle
        (BuildPortName kCarrierMailslotName q)).1 = true ∧
      sendLog (establishCommunication CoreCarrier.idle
        (BuildPortName kCarrierMailslotName q)).2 "x" "aaa" =
        (true, [Event.queueMsg q ⟨"x", 0, .kLog, stringToBytes "aaa"⟩]) ∧
      sendCommand (establishCommunication CoreCarrier.idle
        (BuildPortName kCarrierMailslotName q)).2 "x" "aaa" =
        (true,
          [Event.queueMsg q ⟨"x", 0, .kCommand, stringToBytes "aaa"⟩]) ∧
      (runSteps st msgs).correctLogs = 2 ∧
      (runSteps st msgs).correctCommands = 2 := by
  have hp : parseBackend (BuildPortName kCarrierMailslotName q) =
      some (.queue q) := by
    rw [parseBackend_buildPort _ _ (by decide)]
    rfl
  refine ⟨by simp [establishCommunication, hp],
    by simp [establishCommunication, hp, sendLog, sendRecord],
    by simp [establishCommunication, hp, sendCommand, sendRecord],
    ?_, ?_⟩
  · rw [runSteps_correctLogs, hlogs, hperm.countP_eq isLogMatch]
    decide
  · rw [runSteps_correctCommands, hcmds,
      hperm.countP_eq isCommandKindMatch, hperm.countP_eq isYamlMatch]
    decide

/-- C1 witness: queue "WinAgentTest", the reset static storage, the four
records in the order the test sends them. -/
theorem c1_two_logs_two_commands_witness :
    TestStorage.initial.correctLogs = 0 ∧
      TestStorage.initial.correctCommands = 0 ∧
      List.Perm
        [CarrierDataHeader.mk "x" 0 .kLog (stringToBytes "aaa"),
          ⟨"x", 0, .kLog, stringToBytes "aaa"⟩,
          ⟨"x", 0, .kCommand, stringToBytes "aaa"⟩,
          ⟨"x", 0, .kCommand, stringToBytes "aaa"⟩]
        [⟨"x", 0, .kLog, stringToBytes "aaa"⟩,
          ⟨"x", 0, .kLog, stringToBytes "aaa"⟩,
          ⟨"x", 0, .kCommand, stringToBytes "aaa"⟩,
          ⟨"x", 0, .kCommand, stringToBytes "aaa"⟩] ∧
      ((runSteps TestStorage.initial
          [⟨"x", 0, .kLog, stringToBytes "aaa"⟩,
            ⟨"x", 0, .kLog, stringToBytes "aaa"⟩,
            ⟨"x", 0, .kCommand, stringToBytes "aaa"⟩,
            ⟨"x", 0, .kCommand, stringToBytes "aaa"⟩]).correctLogs = 2 ∧
        (runSteps TestStorage.initial
          [⟨"x", 0, .kLog, stringToBytes "aaa"⟩,
            ⟨"x", 0, .kLog, stringToBytes "aaa"⟩,
            ⟨"x", 0, .kCommand, stringToBytes "aaa"⟩,
            ⟨"x", 0, .kCommand, stringToBytes "aaa"⟩]).correctCommands =
          2) :=
  ⟨rfl, rfl, List.Perm.refl _,
    ⟨(c1_two_logs_two_commands "WinAgentTest" TestStorage.initial
      [⟨"x", 0, .kLog, stringToBytes "aaa"⟩,
        ⟨"x", 0, .kLog, stringToBytes "aaa"⟩,
        ⟨"x", 0, .kCommand, stringToBytes "aaa"⟩,
        ⟨"x", 0, .kCommand, stringToBytes "aaa"⟩]
      rfl rfl (List.Perm.refl _)).2.2.2.1,
     (c1_two_logs_two_commands "WinAgentTest" TestStorage.initial
      [⟨"x", 0, .kLog, stringToBytes "aaa"⟩,
        ⟨"x", 0, .kLog, stringToBytes "aaa"⟩,
        ⟨"x", 0, .kCommand, stringToBytes "aaa"⟩,
        ⟨"x", 0, .kCommand, stringToBytes "aaa"⟩]
      rfl rfl (List.Perm.refl _)).2.2.2.2⟩⟩

/-- C5: a received Log, Yaml or Command record whose text conversion
fails is discarded inside the per-message dispatch: no match counter
changes and no buffer is stored, the callback still returns true
(normally), and the loop goes on to process the remaining messages — one
malformed message never terminates the receive loop. -/
theorem c5_fault_isolation (st : TestStorage) (dt : CarrierDataHeader)
    (rest : List CarrierDataHeader)
    (hk : dt.type = .kLog ∨ dt.type = .kYaml ∨ dt.type = .kCommand)
    (hfail : AsString (some dt) = .error ()) :
    MailboxCallbackCarrier (some st) dt =
        (true, some (callbackStep st dt)) ∧
      (callbackStep st dt).correctLogs = st.correctLogs ∧
      (callbackStep st dt).correctYamls = st.correctYamls ∧
      (callbackStep st dt).correctCommands = st.correctCommands ∧
      (callbackStep st dt).buffer = st.buffer ∧
      runMailbox (some st) (dt :: rest) =
        runMailbox (some (callbackStep st dt)) rest := by
  refine ⟨rfl, ?_, ?_, ?_, ?_, rfl⟩ <;>
    rcases hk with h | h | h <;>
      simp [callbackStep, commandBranch, hfail, h]

/-- C5 witness: a Log record whose payload byte 200 is not valid text. -/
theorem c5_fault_isolation_witness :
    ((⟨"x", 0, .kLog, [200]⟩ : CarrierDataHeader).type = .kLog ∨
        (⟨"x", 0, .kLog, [200]⟩ : CarrierDataHeader).type = .kYaml ∨
        (⟨"x", 0, .kLog, [200]⟩ : CarrierDataHeader).type = .kCommand) ∧
      AsString (some ⟨"x", 0, .kLog, [200]⟩) = .error () ∧
      (MailboxCallbackCarrier (some TestStorage.initial)
          ⟨"x", 0, .kLog, [200]⟩ =
          (true,
            some (callbackStep TestStorage.initial
              ⟨"x", 0, .kLog, [200]⟩)) ∧
        (callbackStep TestStorage.initial
          ⟨"x", 0, .kLog, [200]⟩).correctLogs =
          TestStorage.initial.correctLogs ∧
        (callbackStep TestStorage.initial
          ⟨"x", 0, .kLog, [200]⟩).correctYamls =
          TestStorage.initial.correctYamls ∧
        (callbackStep TestStorage.initial
          ⟨"x", 0, .kLog, [200]⟩).correctCommands =
          TestStorage.initial.correctCommands ∧
        (callbackStep TestStorage.initial
          ⟨"x", 0, .kLog, [200]⟩).buffer = TestStorage.initial.buffer ∧
        runMailbox (some TestStorage.initial)
          (⟨"x", 0, .kLog, [200]⟩ ::
            [⟨"x", 0, .kLog, stringToBytes "aaa"⟩]) =
          runMailbox
            (some (callbackStep TestStorage.initial
              ⟨"x", 0, .kLog, [200]⟩))
            [⟨"x", 0, .kLog, stringToBytes "aaa"⟩]) :=
  ⟨by decide, by decide,
    c5_fault_isolation TestStorage.initial ⟨"x", 0, .kLog, [200]⟩
      [⟨"x", 0, .kLog, stringToBytes "aaa"⟩]
      (by decide) (by decide)⟩

/-- C10: the Yaml branch of the receive callback falls through into the
Command branch — a Yaml record matching "aaa" increments both the
yaml-match and the command-match counter and sets the delivered flag, so
over any message list the command-match count is the number of matching
Command records plus the number of matching Yaml records; and a Segment
record only stores the buffer, answer id and peer name, leaving the three
match counters and the delivered flag unchanged. -/
theorem c10_yaml_fallthrough_segment_neutral (st : TestStorage)
    (dt dseg : CarrierDataHeader) (msgs : List CarrierDataHeader)
    (hy : dt.type = .kYaml) (haaa : AsString (some dt) = .ok "aaa")
    (hseg : dseg.type = .kSegment) :
    callbackStep st dt =
        { st with
          correctYamls := st.correctYamls + 1
          correctCommands := st.correctCommands + 1
          delivered := true } ∧
      (runSteps st msgs).correctCommands =
        st.correctCommands + msgs.countP isCommandKindMatch +
          msgs.countP isYamlMatch ∧
      callbackStep st dseg =
        { st with
          buffer := dseg.data
          answerId := dseg.answerId
          peerName := dseg.providerId } ∧
      (callbackStep st dseg).correctLogs = st.correctLogs ∧
      (callbackStep st dseg).correctYamls = st.correctYamls ∧
      (callbackStep st dseg).correctCommands = st.correctCommands ∧
      (callbackStep st dseg).delivered = st.delivered := by
  refine ⟨?_, runSteps_correctCommands msgs st, ?_, ?_, ?_, ?_, ?_⟩
  · simp [callbackStep, commandBranch, hy, haaa]
  all_goals simp [callbackStep, hseg]

/-- C10 witness: a Yaml "aaa" record and a Segment record with payload
[1, 2, 3], processed from the zero-initialized storage. -/
theorem c10_yaml_fallthrough_segment_neutral_witness :
    (⟨"x", 0, .kYaml, stringToBytes "aaa"⟩ :
        CarrierDataHeader).type = .kYaml ∧
      AsString (some ⟨"x", 0, .kYaml, stringToBytes "aaa"⟩) = .ok "aaa" ∧
      (⟨"a", 11, .kSegment, [1, 2, 3]⟩ :
        CarrierDataHeader).type = .kSegment ∧
      (callbackStep TestStorage.initial
          ⟨"x", 0, .kYaml, stringToBytes "aaa"⟩ =
        { TestStorage.initial with
          correctYamls := TestStorage.initial.correctYamls + 1
          correctCommands := TestStorage.initial.correctCommands + 1
          delivered := true } ∧
      (runSteps TestStorage.initial
          [⟨"x", 0, .kYaml, stringToBytes "aaa"⟩]).correctCommands =
        TestStorage.initial.correctCommands +
          List.countP isCommandKindMatch
            [⟨"x", 0, .kYaml, stringToBytes "aaa"⟩] +
          List.countP isYamlMatch
            [⟨"x", 0, .kYaml, stringToBytes "aaa"⟩] ∧
      callbackStep TestStorage.initial ⟨"a", 11, .kSegment, [1, 2, 3]⟩ =
        { TestStorage.initial with
          buffer := (⟨"a", 11, .kSegment, [1, 2, 3]⟩ :
            CarrierDataHeader).data
          answerId := (⟨"a", 11, .kSegment, [1, 2, 3]⟩ :
            CarrierDataHeader).answerId
          peerName := (⟨"a", 11, .kSegment, [1, 2, 3]⟩ :
            CarrierDataHeader).providerId } ∧
      (callbackStep TestStorage.initial
          ⟨"a", 11, .kSegment, [1, 2, 3]⟩).correctLogs =
        TestStorage.initial.correctLogs ∧
      (callbackStep TestStorage.initial
          ⟨"a", 11, .kSegment, [1, 2, 3]⟩).correctYamls =
        TestStorage.initial.correctYamls ∧
      (callbackStep TestStorage.initial
          ⟨"a", 11, .kSegment, [1, 2, 3]⟩).correctCommands =
        TestStorage.initial.correctCommands ∧
      (callbackStep TestStorage.initial
          ⟨"a", 11, .kSegment, [1, 2, 3]⟩).delivered =
        TestStorage.initial.delivered) :=
  ⟨rfl, by decide, rfl,
    c10_yaml_fallthrough_segment_neutral TestStorage.initial
      ⟨"x", 0, .kYaml, stringToBytes "aaa"⟩
      ⟨"a", 11, .kSegment, [1, 2, 3]⟩
      [⟨"x", 0, .kYaml, stringToBytes "aaa"⟩]
      rfl (by decide) rfl⟩

/-- C9: two inform_via_queue sends to the same queue each succeed, and a
listener on that queue whose Command dispatch forwards to the test
handler invokes the handler exactly once per send, observing "xxx" before
"zzz", each invocation reporting the command accepted. -/
theorem c9_inform_in_send_order (q : String) :
    (InformByMailSlot q "xxx").1 = true ∧
      (InformByMailSlot q "zzz").1 = true ∧
      dispatchAll TestRunCommand
        (eventsToQueue q
          ((InformByMailSlot q "xxx").2 ++ (InformByMailSlot q "zzz").2)) =
        [(kMainPeer, "xxx", true), (kMainPeer, "zzz", true)] := by
  have hp : parseBackend (BuildPortName kCarrierMailslotName q) =
      some (.queue q) := by
    rw [parseBackend_buildPort _ _ (by decide)]
    rfl
  have hx : InformByMailSlot q "xxx" =
      (true,
        [.queueMsg q ⟨kMainPeer, 0, .kCommand, stringToBytes "xxx"⟩]) := by
    simp [InformByMailSlot, establishCommunication, hp, sendCommand,
      sendRecord]
  have hz : InformByMailSlot q "zzz" =
      (true,
        [.queueMsg q ⟨kMainPeer, 0, .kCommand, stringToBytes "zzz"⟩]) := by
    simp [InformByMailSlot, establishCommunication, hp, sendCommand,
      sendRecord]
  refine ⟨by rw [hx], by rw [hz], ?_⟩
  rw [hx, hz]
  simp only [List.cons_append, List.nil_append]
  rw [show eventsToQueue q
      [.queueMsg q ⟨kMainPeer, 0, .kCommand, stringToBytes "xxx"⟩,
        .queueMsg q ⟨kMainPeer, 0, .kCommand, stringToBytes "zzz"⟩] =
      [⟨kMainPeer, 0, .kCommand, stringToBytes "xxx"⟩,
        ⟨kMainPeer, 0, .kCommand, stringToBytes "zzz"⟩] from by
    simp [eventsToQueue]]
  decide

end Carrier
